import Mathlib

/-!
Shallow embedding of `src/tonic/src/transport/service/connection.rs`:
client-side transport connection facade, middleware pipeline assembly,
and the connection-making sub-factory (`MakeSendRequestService`).

Async futures are modelled by explicit result values plus an ordered
event trace; machine integers become `Nat`; fallible operations return
`Except`. `Duration`, `Uri`, the byte-stream connector and the hyper
HTTP/2 handshake are modelled abstractly at the granularity the code
observes them.
-/

/-- Durations are opaque to this code; modelled as natural numbers. -/
abbrev Duration := Nat

/-- Model of `http::Uri` at the granularity this code observes it:
scheme, authority and path-and-query components. -/
structure Uri where
  scheme : Option String
  authority : Option String
  path : String
deriving DecidableEq, Repr

/-- Model of `tonic::transport::Endpoint`, restricted to the fields read by
`connection.rs` (lines 33-65): target uri, optional origin override,
user agent, timeout, admission limits, HTTP/2 handshake settings and the
executor capability (modelled as an opaque identifier). -/
structure Endpoint where
  uri : Uri
  origin : Option Uri
  user_agent : Option String
  timeout : Option Duration
  concurrency_limit : Option Nat
  rate_limit : Option (Nat × Duration)
  init_stream_window_size : Option Nat
  init_connection_window_size : Option Nat
  http2_keep_alive_interval : Option Duration
  http2_keep_alive_timeout : Option Duration
  http2_keep_alive_while_idle : Option Bool
  http2_adaptive_window : Option Bool
  executor : Nat
deriving DecidableEq, Repr

/-- Model of `hyper::client::conn::http2::Builder`: the record of handshake
settings this code passes to hyper. A `none` field means the builder's
own default is left in place (no override applied by this code). -/
structure Http2Settings where
  exec : Nat
  stream_window : Option Nat := none
  conn_window : Option Nat := none
  ka_interval : Option Duration := none
  ka_timeout : Option Duration := none
  ka_while_idle : Option Bool := none
  adaptive : Option Bool := none
deriving DecidableEq, Repr

/-- `Builder::new(executor)`: fresh settings, every override at default. -/
def Http2Settings.new (exec : Nat) : Http2Settings := { exec }

/-- `Builder::initial_stream_window_size` (argument is `Into<Option<u32>>`). -/
def Http2Settings.initial_stream_window_size (b : Http2Settings) (sz : Option Nat) :
    Http2Settings :=
  { b with stream_window := sz }

/-- `Builder::initial_connection_window_size`. -/
def Http2Settings.initial_connection_window_size (b : Http2Settings) (sz : Option Nat) :
    Http2Settings :=
  { b with conn_window := sz }

/-- `Builder::keep_alive_interval` (argument is `Into<Option<Duration>>`). -/
def Http2Settings.keep_alive_interval (b : Http2Settings) (d : Option Duration) :
    Http2Settings :=
  { b with ka_interval := d }

/-- `Builder::keep_alive_timeout`. -/
def Http2Settings.keep_alive_timeout (b : Http2Settings) (d : Duration) : Http2Settings :=
  { b with ka_timeout := some d }

/-- `Builder::keep_alive_while_idle`. -/
def Http2Settings.keep_alive_while_idle (b : Http2Settings) (v : Bool) : Http2Settings :=
  { b with ka_while_idle := some v }

/-- `Builder::adaptive_window`. -/
def Http2Settings.adaptive_window (b : Http2Settings) (v : Bool) : Http2Settings :=
  { b with adaptive := some v }

/-- Transport error taxonomy of the spec, refining the dynamically typed
`crate::Error`: the constructor records which stage produced the boxed
error value. -/
inductive ConnError where
  | connect (msg : String)
  | handshake (msg : String)
  | transport (msg : String)
  | driver (msg : String)
deriving DecidableEq, Repr

/-- Model of `std::task::Poll`. -/
inductive Poll (α : Type) where
  | ready (a : α)
  | pending
deriving DecidableEq, Repr

/-- Model of the byte-stream connector capability `C : Service<Uri>`:
its current readiness and its dial behaviour. A successfully dialed
byte-stream is an opaque identifier. -/
structure Connector where
  ready : Poll (Except String Unit)
  dial : Uri → Except String Nat

/-- Behaviour of the hyper HTTP/2 handshake: given a dialed stream and the
settings, either fail or return (send-request handle id, session-driver
future id). -/
abbrev HandshakeFn := Nat → Http2Settings → Except String (Nat × Nat)

/-- Model of the `SendRequest` adapter: owns one live multiplexed-session
sender (opaque identifier). -/
structure SendRequest where
  inner : Nat
deriving DecidableEq, Repr

/-- `MakeSendRequestService` (lines 151-165): the connection-making
sub-factory, holding the connector, the endpoint configuration, and the
top-level handshake settings built in `Connection::new`. -/
structure MakeSendRequestService where
  connector : Connector
  endpoint : Endpoint
  settings : Http2Settings

/-- `MakeSendRequestService::new` (lines 158-164). -/
def MakeSendRequestService.new (connector : Connector) (endpoint : Endpoint)
    (settings : Http2Settings) : MakeSendRequestService :=
  { connector, endpoint, settings }

/-- Model of `super::reconnect::Reconnect`: the reconnection wrapper around
the sub-factory, recording the wrapped factory, target uri, and laziness. -/
structure Reconnect where
  mk_svc : MakeSendRequestService
  target : Uri
  is_lazy : Bool

/-- `Reconnect::new(make_service, uri, is_lazy)`. -/
def Reconnect.new (mk_svc : MakeSendRequestService) (target : Uri) (is_lazy : Bool) :
    Reconnect :=
  { mk_svc, target, is_lazy }

/-- One middleware layer of the assembled pipeline, with the configuration
value its `layer_fn` closure captures (lines 51-61). -/
inductive LayerSpec where
  | addOrigin (origin : Uri)
  | userAgent (ua : Option String)
  | grpcTimeout (t : Option Duration)
  | concurrencyLimit (max : Nat)
  | rateLimit (num : Nat) (per : Duration)
deriving DecidableEq, Repr

/-- Model of `tower::ServiceBuilder`: the ordered stack of layers,
outermost first. -/
abbrev ServiceBuilder := List LayerSpec

/-- `ServiceBuilder::new()`. -/
def ServiceBuilder.new : ServiceBuilder := []

/-- `ServiceBuilder::layer_fn`: a layer added later wraps closer to the
inner service, so it is appended after the earlier ones. -/
def ServiceBuilder.layer_fn (b : ServiceBuilder) (l : LayerSpec) : ServiceBuilder :=
  b ++ [l]

/-- `ServiceBuilder::option_layer`: adds the layer exactly when present. -/
def ServiceBuilder.option_layer (b : ServiceBuilder) (l : Option LayerSpec) :
    ServiceBuilder :=
  match l with
  | some l => b ++ [l]
  | none => b

/-- The `Connection` facade: the type-erased pipeline, modelled as the
middleware stack (outer-to-inner) wrapped around the reconnection-wrapped
sub-factory. -/
structure Connection where
  layers : List LayerSpec
  inner : Reconnect

/-- Top-level handshake settings built at lines 33-49 of `Connection::new`:
window sizes and keepalive interval always, then the three conditional
overrides. -/
def buildSettings (endpoint : Endpoint) : Http2Settings :=
  let settings :=
    (((Http2Settings.new endpoint.executor).initial_stream_window_size
        endpoint.init_stream_window_size).initial_connection_window_size
        endpoint.init_connection_window_size).keep_alive_interval
        endpoint.http2_keep_alive_interval
  let settings :=
    match endpoint.http2_keep_alive_timeout with
    | some val => settings.keep_alive_timeout val
    | none => settings
  let settings :=
    match endpoint.http2_keep_alive_while_idle with
    | some val => settings.keep_alive_while_idle val
    | none => settings
  match endpoint.http2_adaptive_window with
  | some val => settings.adaptive_window val
  | none => settings

/-- `Connection::new` (lines 26-70): builds the handshake settings, the
middleware stack, the sub-factory and the reconnection wrapper, and
assembles the facade. -/
def Connection.new (connector : Connector) (endpoint : Endpoint) (is_lazy : Bool) :
    Connection :=
  let settings := buildSettings endpoint
  let stack :=
    ((((ServiceBuilder.new.layer_fn
        (.addOrigin (endpoint.origin.getD endpoint.uri))).layer_fn
        (.userAgent endpoint.user_agent)).layer_fn
        (.grpcTimeout endpoint.timeout)).option_layer
        (endpoint.concurrency_limit.map LayerSpec.concurrencyLimit)).option_layer
        (endpoint.rate_limit.map fun p => LayerSpec.rateLimit p.1 p.2)
  let make_service := MakeSendRequestService.new connector endpoint settings
  let conn := Reconnect.new make_service endpoint.uri is_lazy
  { layers := stack, inner := conn }

/-- `impl Load for Connection` (lines 107-113): the constant stub metric. -/
def Connection.load (_ : Connection) : Nat := 0

/-- Rust `Formatter::debug_struct(name).finish()`: the name alone when no
field was added. -/
def debug_struct_finish (name : String) (fields : List (String × String)) : String :=
  match fields with
  | [] => name
  | _ =>
      name ++ " \x7b " ++
        String.intercalate ", " (fields.map fun p => p.1 ++ ": " ++ p.2) ++ " \x7d"

/-- `impl fmt::Debug for Connection` (lines 115-119). -/
def Connection.fmtDebug (_ : Connection) : String :=
  debug_struct_finish "Connection" []

/-- Observable steps performed by a connection attempt, in execution
order. -/
inductive Event where
  | dialOk (req : Uri) (io : Nat)
  | dialFail (req : Uri) (msg : String)
  | handshakeOk (settings : Http2Settings) (conn : Nat)
  | handshakeFail (settings : Http2Settings) (msg : String)
  | spawnDriver (conn : Nat)
deriving DecidableEq, Repr

/-- A diagnostic log record (`tracing::debug!`). -/
inductive LogEntry where
  | debug (msg : String)
deriving DecidableEq, Repr

/-- Per-attempt handshake settings, built inline at lines 186-189 of
`MakeSendRequestService::call`: a fresh builder with only the two window
sizes and the keepalive interval taken from the endpoint. -/
def attemptSettings (endpoint : Endpoint) : Http2Settings :=
  (((Http2Settings.new endpoint.executor).initial_stream_window_size
      endpoint.init_stream_window_size).initial_connection_window_size
      endpoint.init_connection_window_size).keep_alive_interval
      endpoint.http2_keep_alive_interval

/-- `MakeSendRequestService::poll_ready` (lines 178-180): delegates to the
connector's readiness, converting its error by value (`Into`). -/
def MakeSendRequestService.poll_ready (svc : MakeSendRequestService) :
    Poll (Except ConnError Unit) :=
  match svc.connector.ready with
  | .ready (.ok u) => .ready (.ok u)
  | .ready (.error e) => .ready (.error (.connect e))
  | .pending => .pending

/-- `MakeSendRequestService::call` (lines 182-204): dial the connector,
perform the handshake with fresh per-attempt settings, spawn the
session-driver future on the executor, and return the `SendRequest`
handle. Returns the attempt's result together with its event trace. -/
def MakeSendRequestService.call (svc : MakeSendRequestService) (hs : HandshakeFn)
    (req : Uri) : Except ConnError SendRequest × List Event :=
  match svc.connector.dial req with
  | .error e => (.error (.connect e), [.dialFail req e])
  | .ok io =>
      let settings := attemptSettings svc.endpoint
      match hs io settings with
      | .error e => (.error (.handshake e), [.dialOk req io, .handshakeFail settings e])
      | .ok (send_request, conn) =>
          (.ok { inner := send_request },
            [.dialOk req io, .handshakeOk settings conn, .spawnDriver conn])

/-- Body of the spawned fire-and-forget task (lines 195-199): await the
session driver; on error emit one diagnostic log entry, otherwise nothing.
Its result type shows it returns no value to any caller. -/
def driverTask (outcome : Except String Unit) : List LogEntry :=
  match outcome with
  | .error e => [LogEntry.debug ("connection task error: " ++ e)]
  | .ok _ => []

/-- Modelled from the spec: the Reconnection Policy (`super::reconnect`,
not under `src/`) with eager semantics performs the first connection
attempt when the pipeline is driven to readiness, and with lazy semantics
reports ready without any attempt, deferring to the first call. Returns
the drive's result and the attempt's event trace. -/
def Reconnect.driveReady (r : Reconnect) (hs : HandshakeFn) :
    Except ConnError Unit × List Event :=
  if r.is_lazy then (.ok (), [])
  else
    let attempt := r.mk_svc.call hs r.target
    (attempt.1.map fun _ => (), attempt.2)

/-- `ServiceExt::ready_oneshot` on the assembled pipeline: the middleware
layers delegate readiness inward, so driving the pipeline ready drives the
reconnection wrapper ready. -/
def Connection.ready_oneshot (c : Connection) (hs : HandshakeFn) :
    Except ConnError Connection × List Event :=
  let drive := c.inner.driveReady hs
  (drive.1.map fun _ => c, drive.2)

/-- `Connection::connect` (lines 72-80): build eagerly (`is_lazy = false`)
and drive the pipeline to readiness before resolving. -/
def Connection.connect (connector : Connector) (endpoint : Endpoint)
    (hs : HandshakeFn) : Except ConnError Connection × List Event :=
  (Connection.new connector endpoint false).ready_oneshot hs

/-- `Connection::lazy` (lines 82-90): build with `is_lazy = true`; pure
construction, no connection attempt, cannot fail. -/
def Connection.lazy (connector : Connector) (endpoint : Endpoint) :
    Connection × List Event :=
  (Connection.new connector endpoint true, [])

/-- Modelled from the spec: the origin-rewriting middleware `AddOrigin`
(`super::AddOrigin`, not under `src/`) rewrites the request's target
authority and scheme to the configured origin, leaving the rest of the
request unchanged. -/
structure HttpRequest where
  scheme : Option String
  authority : Option String
  path : String
  headers : List (String × String)
deriving DecidableEq, Repr

/-- Modelled from the spec: applying the `AddOrigin` layer to a request
replaces its scheme and authority with the configured origin's. -/
def addOriginApply (origin : Uri) (req : HttpRequest) : HttpRequest :=
  { req with scheme := origin.scheme, authority := origin.authority }

/-! ## Helper lemmas shared by several theorems -/

/-- Unfolding the middleware stack of `Connection::new` to an explicit
outer-to-inner list. -/
theorem Connection.new_layers (connector : Connector) (e : Endpoint) (lz : Bool) :
    (Connection.new connector e lz).layers =
      [LayerSpec.addOrigin (e.origin.getD e.uri), LayerSpec.userAgent e.user_agent,
          LayerSpec.grpcTimeout e.timeout]
        ++ (e.concurrency_limit.map LayerSpec.concurrencyLimit).toList
        ++ ((e.rate_limit.map fun p => LayerSpec.rateLimit p.1 p.2)).toList := by
  rcases e with ⟨uri, origin, ua, t, cl, rl, sw, cw, ki, kt, kw, aw, ex⟩
  rcases cl with _ | n <;> rcases rl with _ | ⟨num, per⟩ <;>
    simp [Connection.new, ServiceBuilder.new, ServiceBuilder.layer_fn,
      ServiceBuilder.option_layer]

/-- Unfolding the innermost service of `Connection::new`: the reconnection
wrapper around the connection-making sub-factory. -/
theorem Connection.new_inner (connector : Connector) (e : Endpoint) (lz : Bool) :
    (Connection.new connector e lz).inner =
      Reconnect.new (MakeSendRequestService.new connector e (buildSettings e)) e.uri lz := by
  rfl

/-! ## Concrete fixtures used by witnesses -/

/-- A concrete target uri. -/
def testUri : Uri := { scheme := some "http", authority := some "example.com", path := "/" }

/-- A concrete origin override, distinct from the target uri. -/
def testOrigin : Uri :=
  { scheme := some "https", authority := some "origin.example", path := "/" }

/-- A concrete endpoint configuration with every optional field set. -/
def testEndpoint : Endpoint :=
  { uri := testUri, origin := some testOrigin, user_agent := some "tonic-ua",
    timeout := some 5, concurrency_limit := some 2, rate_limit := some (3, 7),
    init_stream_window_size := some 11, init_connection_window_size := some 13,
    http2_keep_alive_interval := some 17, http2_keep_alive_timeout := some 19,
    http2_keep_alive_while_idle := some true, http2_adaptive_window := some false,
    executor := 1 }

/-- A connector that is ready and dials successfully. -/
def okConnector : Connector := { ready := .ready (.ok ()), dial := fun _ => .ok 42 }

/-- A connector whose dial and readiness fail. -/
def failConnector : Connector :=
  { ready := .ready (.error "refused"), dial := fun _ => .error "refused" }

/-- A handshake that succeeds with fixed handle and driver identifiers. -/
def okHandshake : HandshakeFn := fun _ _ => .ok (100, 200)

/-- A handshake that fails. -/
def failHandshake : HandshakeFn := fun _ _ => .error "bad preface"

/-- The sub-factory assembled from the test fixtures. -/
def testSvc : MakeSendRequestService :=
  MakeSendRequestService.new okConnector testEndpoint (buildSettings testEndpoint)

/-! ## Claim theorems -/

/-- C1: for every endpoint configuration, the assembled pipeline layers the
request path in the fixed outer-to-inner order origin rewriting, client
identification, deadline enforcement, concurrency limit, rate limit, then
the reconnection wrapper around the connection-making sub-factory; the
concurrency-limit and rate-limit layers are present exactly when
`concurrency_limit` (respectively `rate_limit`) is configured. -/
theorem pipeline_fixed_order (connector : Connector) (e : Endpoint) (lz : Bool) :
    (Connection.new connector e lz).layers =
      [LayerSpec.addOrigin (e.origin.getD e.uri), LayerSpec.userAgent e.user_agent,
          LayerSpec.grpcTimeout e.timeout]
        ++ (e.concurrency_limit.map LayerSpec.concurrencyLimit).toList
        ++ ((e.rate_limit.map fun p => LayerSpec.rateLimit p.1 p.2)).toList
    ∧ (Connection.new connector e lz).inner =
        Reconnect.new (MakeSendRequestService.new connector e (buildSettings e)) e.uri lz
    ∧ ((∃ n, LayerSpec.concurrencyLimit n ∈ (Connection.new connector e lz).layers) ↔
        e.concurrency_limit.isSome)
    ∧ ((∃ n d, LayerSpec.rateLimit n d ∈ (Connection.new connector e lz).layers) ↔
        e.rate_limit.isSome) := by
  refine ⟨Connection.new_layers connector e lz, Connection.new_inner connector e lz, ?_, ?_⟩
  · rw [Connection.new_layers connector e lz]
    rcases e.concurrency_limit with _ | n <;> rcases e.rate_limit with _ | ⟨num, per⟩ <;>
      simp
  · rw [Connection.new_layers connector e lz]
    rcases e.concurrency_limit with _ | n <;> rcases e.rate_limit with _ | ⟨num, per⟩ <;>
      simp

/-- C8: the load metric is the same constant for any two Connections,
whatever their configurations or history. -/
theorem load_is_constant (c1 c2 : Connection) :
    Connection.load c1 = Connection.load c2 ∧ Connection.load c1 = 0 :=
  ⟨rfl, rfl⟩

/-- C9: the Debug representation of any Connection is the fixed string
consisting only of the type name, independent of endpoint and state. -/
theorem debug_is_type_name_only (c1 c2 : Connection) :
    Connection.fmtDebug c1 = Connection.fmtDebug c2
      ∧ Connection.fmtDebug c1 = "Connection" :=
  ⟨rfl, rfl⟩

/-- C4: a connection attempt dials first, then handshakes with the
per-attempt settings, then spawns the driver and returns the handle; a
dial failure classifies as a Connect error and a handshake failure after a
successful dial as a Handshake error, with the event trace in exactly that
order. -/
theorem attempt_order_and_error_classes (svc : MakeSendRequestService)
    (hs : HandshakeFn) (req : Uri) :
    (∀ m, svc.connector.dial req = .error m →
      svc.call hs req = (.error (.connect m), [.dialFail req m]))
    ∧ (∀ io m, svc.connector.dial req = .ok io →
        hs io (attemptSettings svc.endpoint) = .error m →
        svc.call hs req = (.error (.handshake m),
          [.dialOk req io, .handshakeFail (attemptSettings svc.endpoint) m]))
    ∧ (∀ io sr conn, svc.connector.dial req = .ok io →
        hs io (attemptSettings svc.endpoint) = .ok (sr, conn) →
        svc.call hs req = (.ok { inner := sr },
          [.dialOk req io, .handshakeOk (attemptSettings svc.endpoint) conn,
            .spawnDriver conn])) := by
  refine ⟨?_, ?_, ?_⟩
  · intro m h
    simp [MakeSendRequestService.call, h]
  · intro io m hdial hhs
    simp [MakeSendRequestService.call, hdial, hhs]
  · intro io sr conn hdial hhs
    simp [MakeSendRequestService.call, hdial, hhs]

/-- Witness for C4: with the failing connector the attempt is a Connect
error; instantiated from the theorem at concrete fixtures. -/
theorem attempt_order_and_error_classes_witness :
    (MakeSendRequestService.new failConnector testEndpoint
        (buildSettings testEndpoint)).call okHandshake testUri =
      (.error (.connect "refused"), [.dialFail testUri "refused"]) :=
  (attempt_order_and_error_classes
    (MakeSendRequestService.new failConnector testEndpoint (buildSettings testEndpoint))
    okHandshake testUri).1 "refused" rfl

/-- C2: after a successful handshake the session-driving future is spawned
as fire-and-forget work whose error outcome produces only a diagnostic log
entry, and no caller-facing result of the sub-factory is ever a Driver
error. -/
theorem driver_outcome_never_propagates (svc : MakeSendRequestService)
    (hs : HandshakeFn) (req : Uri) (io sr conn : Nat)
    (hdial : svc.connector.dial req = .ok io)
    (hhs : hs io (attemptSettings svc.endpoint) = .ok (sr, conn)) :
    (Event.spawnDriver conn ∈ (svc.call hs req).2
      ∧ (svc.call hs req).1 = .ok { inner := sr })
    ∧ (∀ outcome : Except String Unit, outcome.isOk → driverTask outcome = [])
    ∧ (∀ m, driverTask (.error m) = [LogEntry.debug ("connection task error: " ++ m)])
    ∧ (∀ (svc' : MakeSendRequestService) (hs' : HandshakeFn) (req' : Uri) (m : String),
        (svc'.call hs' req').1 ≠ .error (.driver m)) := by
  refine ⟨?_, ?_, ?_, ?_⟩
  · simp [MakeSendRequestService.call, hdial, hhs]
  · intro outcome hok
    rcases outcome with m | u
    · simp [Except.isOk, Except.toBool] at hok
    · rfl
  · intro m
    rfl
  · intro svc' hs' req' m
    rcases h : svc'.connector.dial req' with m' | io'
    · simp [MakeSendRequestService.call, h]
    · rcases h2 : hs' io' (attemptSettings svc'.endpoint) with m' | ⟨sr', conn'⟩
      · simp [MakeSendRequestService.call, h, h2]
      · simp [MakeSendRequestService.call, h, h2]

/-- Witness for C2: spawning and the non-propagating result observed at the
concrete fixtures. -/
theorem driver_outcome_never_propagates_witness :
    Event.spawnDriver 200 ∈ (testSvc.call okHandshake testUri).2
      ∧ (testSvc.call okHandshake testUri).1 = .ok { inner := 100 } :=
  (driver_outcome_never_propagates testSvc okHandshake testUri 42 100 200 rfl rfl).1

/-- C5: every per-attempt handshake uses exactly the configured window
sizes and keepalive interval and leaves the keepalive-timeout,
keepalive-while-idle and adaptive-window overrides at their defaults,
while the top-level builder configuration does apply those three
overrides; any handshake event of a connection attempt carries these
per-attempt settings. -/
theorem handshake_settings_exact (e : Endpoint) :
    attemptSettings e =
      { exec := e.executor, stream_window := e.init_stream_window_size,
        conn_window := e.init_connection_window_size,
        ka_interval := e.http2_keep_alive_interval,
        ka_timeout := none, ka_while_idle := none, adaptive := none }
    ∧ (∀ W, e.init_stream_window_size = some W →
        (attemptSettings e).stream_window = some W)
    ∧ (buildSettings e).ka_timeout = e.http2_keep_alive_timeout
    ∧ (buildSettings e).ka_while_idle = e.http2_keep_alive_while_idle
    ∧ (buildSettings e).adaptive = e.http2_adaptive_window
    ∧ (∀ (svc : MakeSendRequestService) (hs : HandshakeFn) (req : Uri)
          (s : Http2Settings) (conn : Nat),
        Event.handshakeOk s conn ∈ (svc.call hs req).2 → s = attemptSettings svc.endpoint)
    ∧ (∀ (svc : MakeSendRequestService) (hs : HandshakeFn) (req : Uri)
          (s : Http2Settings) (m : String),
        Event.handshakeFail s m ∈ (svc.call hs req).2 →
          s = attemptSettings svc.endpoint) := by
  refine ⟨?_, ?_, ?_, ?_, ?_, ?_, ?_⟩
  · simp [attemptSettings, Http2Settings.new, Http2Settings.initial_stream_window_size,
      Http2Settings.initial_connection_window_size, Http2Settings.keep_alive_interval]
  · intro W h
    simp [attemptSettings, Http2Settings.new, Http2Settings.initial_stream_window_size,
      Http2Settings.initial_connection_window_size, Http2Settings.keep_alive_interval, h]
  · rcases h1 : e.http2_keep_alive_timeout with _ | kt <;>
      rcases h2 : e.http2_keep_alive_while_idle with _ | kw <;>
      rcases h3 : e.http2_adaptive_window with _ | aw <;>
      simp [buildSettings, h1, h2, h3, Http2Settings.new,
        Http2Settings.initial_stream_window_size,
        Http2Settings.initial_connection_window_size, Http2Settings.keep_alive_interval,
        Http2Settings.keep_alive_timeout, Http2Settings.keep_alive_while_idle,
        Http2Settings.adaptive_window]
  · rcases h1 : e.http2_keep_alive_timeout with _ | kt <;>
      rcases h2 : e.http2_keep_alive_while_idle with _ | kw <;>
      rcases h3 : e.http2_adaptive_window with _ | aw <;>
      simp [buildSettings, h1, h2, h3, Http2Settings.new,
        Http2Settings.initial_stream_window_size,
        Http2Settings.initial_connection_window_size, Http2Settings.keep_alive_interval,
        Http2Settings.keep_alive_timeout, Http2Settings.keep_alive_while_idle,
        Http2Settings.adaptive_window]
  · rcases h1 : e.http2_keep_alive_timeout with _ | kt <;>
      rcases h2 : e.http2_keep_alive_while_idle with _ | kw <;>
      rcases h3 : e.http2_adaptive_window with _ | aw <;>
      simp [buildSettings, h1, h2, h3, Http2Settings.new,
        Http2Settings.initial_stream_window_size,
        Http2Settings.initial_connection_window_size, Http2Settings.keep_alive_interval,
        Http2Settings.keep_alive_timeout, Http2Settings.keep_alive_while_idle,
        Http2Settings.adaptive_window]
  · intro svc hs req s conn hmem
    rcases h : svc.connector.dial req with m' | io'
    · simp [MakeSendRequestService.call, h] at hmem
    · rcases h2 : hs io' (attemptSettings svc.endpoint) with m' | ⟨sr', conn'⟩
      · simp [MakeSendRequestService.call, h, h2] at hmem
      · simp [MakeSendRequestService.call, h, h2] at hmem
        exact hmem.1
  · intro svc hs req s m hmem
    rcases h : svc.connector.dial req with m' | io'
    · simp [MakeSendRequestService.call, h] at hmem
    · rcases h2 : hs io' (attemptSettings svc.endpoint) with m' | ⟨sr', conn'⟩
      · simp [MakeSendRequestService.call, h, h2] at hmem
        exact hmem.1
      · simp [MakeSendRequestService.call, h, h2] at hmem

/-- Witness for C5: the round-trip at the concrete endpoint, whose
configured stream window 11 appears exactly in the per-attempt settings. -/
theorem handshake_settings_exact_witness :
    (attemptSettings testEndpoint).stream_window = some 11 :=
  (handshake_settings_exact testEndpoint).2.1 11 rfl

/-- C6: the origin-rewriting layer is constructed with the configured
origin when set and with the target address otherwise, and applying it
rewrites every request's scheme and authority to that origin regardless of
the request's original authority. -/
theorem origin_layer_and_rewrite (connector : Connector) (e : Endpoint) (lz : Bool)
    (req : HttpRequest) :
    (Connection.new connector e lz).layers.head? =
      some (.addOrigin (e.origin.getD e.uri))
    ∧ (∀ o, e.origin = some o →
        (Connection.new connector e lz).layers.head? = some (.addOrigin o))
    ∧ (e.origin = none →
        (Connection.new connector e lz).layers.head? = some (.addOrigin e.uri))
    ∧ (addOriginApply (e.origin.getD e.uri) req).authority = (e.origin.getD e.uri).authority
    ∧ (addOriginApply (e.origin.getD e.uri) req).scheme = (e.origin.getD e.uri).scheme
    ∧ (∀ a, (addOriginApply (e.origin.getD e.uri) { req with authority := a }).authority =
        (e.origin.getD e.uri).authority) := by
  have hhead : (Connection.new connector e lz).layers.head? =
      some (.addOrigin (e.origin.getD e.uri)) := by
    rw [Connection.new_layers connector e lz]
    rfl
  refine ⟨hhead, ?_, ?_, rfl, rfl, fun a => rfl⟩
  · intro o ho
    rw [hhead, ho]
    rfl
  · intro ho
    rw [hhead, ho]
    rfl

/-- Witness for C6: with the configured origin override, the outermost
layer carries exactly it at the concrete fixtures. -/
theorem origin_layer_and_rewrite_witness :
    (Connection.new okConnector testEndpoint true).layers.head? =
      some (.addOrigin testOrigin) :=
  (origin_layer_and_rewrite okConnector testEndpoint true
    { scheme := none, authority := some "other.example", path := "/p",
      headers := [] }).2.1 testOrigin rfl

/-- C7: the sub-factory's readiness equals the connector's readiness with
the error converted by value, is pending or errored exactly when the
connector is, and depends on nothing but the connector's readiness. -/
theorem subfactory_readiness_mirrors_connector (svc : MakeSendRequestService) :
    (svc.poll_ready = .pending ↔ svc.connector.ready = .pending)
    ∧ (svc.poll_ready = .ready (.ok ()) ↔ svc.connector.ready = .ready (.ok ()))
    ∧ (∀ m, svc.poll_ready = .ready (.error (.connect m)) ↔
        svc.connector.ready = .ready (.error m))
    ∧ (∀ svc' : MakeSendRequestService, svc.connector.ready = svc'.connector.ready →
        svc.poll_ready = svc'.poll_ready) := by
  refine ⟨?_, ?_, ?_, ?_⟩
  · rcases h : svc.connector.ready with ⟨_ | u⟩ | _ <;>
      simp [MakeSendRequestService.poll_ready, h]
  · rcases h : svc.connector.ready with ⟨_ | u⟩ | _ <;>
      simp [MakeSendRequestService.poll_ready, h]
  · intro m
    rcases h : svc.connector.ready with ⟨m' | u⟩ | _ <;>
      simp [MakeSendRequestService.poll_ready, h]
  · intro svc' hready
    simp [MakeSendRequestService.poll_ready, hready]

/-- Witness for C7: two sub-factories with different endpoints but the same
connector readiness have equal readiness, at a concrete failing connector. -/
theorem subfactory_readiness_mirrors_connector_witness :
    (MakeSendRequestService.new failConnector testEndpoint
        (buildSettings testEndpoint)).poll_ready =
      .ready (.error (.connect "refused")) :=
  ((subfactory_readiness_mirrors_connector
    (MakeSendRequestService.new failConnector testEndpoint
      (buildSettings testEndpoint))).2.2.1 "refused").mpr rfl

/-- Helper: the eager constructor's result is the first connection
attempt's result mapped onto the assembled Connection. -/
theorem connect_result (connector : Connector) (e : Endpoint) (hs : HandshakeFn) :
    (Connection.connect connector e hs).1 =
      (((MakeSendRequestService.new connector e (buildSettings e)).call hs e.uri).1).map
        (fun _ => Connection.new connector e false) := by
  rcases h : ((MakeSendRequestService.new connector e (buildSettings e)).call hs e.uri).1
    with er | sr <;>
    simp [Connection.connect, Connection.ready_oneshot, Reconnect.driveReady,
      Connection.new, Reconnect.new, MakeSendRequestService.new, Except.map,
      MakeSendRequestService.new] <;>
    simp [MakeSendRequestService.new] at h <;>
    simp [h, Except.map]

/-- C3: lazy construction returns the assembled Connection without failing
synchronously and with an empty attempt trace (no connection attempt
before the first call), while eager construction resolves to an error
exactly when the first connection attempt errors, and on success yields
the assembled eager Connection. -/
theorem lazy_never_fails_eager_fails_on_first_attempt (connector : Connector)
    (e : Endpoint) (hs : HandshakeFn) :
    (Connection.lazy connector e).1 = Connection.new connector e true
    ∧ (Connection.lazy connector e).2 = []
    ∧ (∀ er, (Connection.connect connector e hs).1 = .error er ↔
        ((MakeSendRequestService.new connector e (buildSettings e)).call hs e.uri).1 =
          .error er)
    ∧ (∀ c, (Connection.connect connector e hs).1 = .ok c →
        c = Connection.new connector e false)
    ∧ ((∃ c, (Connection.connect connector e hs).1 = .ok c) ↔
        (∃ sr, ((MakeSendRequestService.new connector e (buildSettings e)).call hs
          e.uri).1 = .ok sr)) := by
  refine ⟨rfl, rfl, ?_, ?_, ?_⟩
  · intro er
    rw [connect_result connector e hs]
    rcases h : ((MakeSendRequestService.new connector e (buildSettings e)).call hs
      e.uri).1 with er' | sr' <;> simp [Except.map]
  · intro c hc
    rw [connect_result connector e hs] at hc
    rcases h : ((MakeSendRequestService.new connector e (buildSettings e)).call hs
      e.uri).1 with er' | sr' <;> rw [h] at hc <;> simp [Except.map] at hc
    exact hc.symm
  · rw [connect_result connector e hs]
    rcases h : ((MakeSendRequestService.new connector e (buildSettings e)).call hs
      e.uri).1 with er' | sr' <;> simp [Except.map]

/-- Witness for C3: the eager constructor surfaces the concrete failing
connector's dial error. -/
theorem lazy_never_fails_eager_fails_on_first_attempt_witness :
    (Connection.connect failConnector testEndpoint okHandshake).1 =
      .error (ConnError.connect "refused") :=
  ((lazy_never_fails_eager_fails_on_first_attempt failConnector testEndpoint
    okHandshake).2.2.1 (ConnError.connect "refused")).mpr rfl

/-- C10: eager and lazy construction assemble the identical pipeline
through the shared constructor with identical settings; they differ only
in the laziness flag given to the reconnection wrapper and in the eager
constructor driving the pipeline ready before resolving to the assembled
Connection. -/
theorem eager_lazy_share_constructor (connector : Connector) (e : Endpoint)
    (hs : HandshakeFn) :
    (Connection.new connector e false).layers = (Connection.new connector e true).layers
    ∧ (Connection.new connector e false).inner.mk_svc =
        (Connection.new connector e true).inner.mk_svc
    ∧ (Connection.new connector e false).inner.mk_svc.settings = buildSettings e
    ∧ (Connection.new connector e false).inner.target =
        (Connection.new connector e true).inner.target
    ∧ (Connection.new connector e false).inner.is_lazy = false
    ∧ (Connection.new connector e true).inner.is_lazy = true
    ∧ (Connection.lazy connector e).1 = Connection.new connector e true
    ∧ (∀ c, (Connection.connect connector e hs).1 = .ok c →
        c = Connection.new connector e false) := by
  refine ⟨rfl, rfl, rfl, rfl, rfl, rfl, rfl, ?_⟩
  intro c hc
  rw [connect_result connector e hs] at hc
  rcases h : ((MakeSendRequestService.new connector e (buildSettings e)).call hs
    e.uri).1 with er' | sr' <;> rw [h] at hc <;> simp [Except.map] at hc
  exact hc.symm

/-- Witness for C10: with the all-succeeding fixtures the eager constructor
resolves to exactly the eagerly assembled Connection. -/
theorem eager_lazy_share_constructor_witness :
    (Connection.connect okConnector testEndpoint okHandshake).1 =
      Except.ok (Connection.new okConnector testEndpoint false)
    ∧ Connection.new okConnector testEndpoint false =
        Connection.new okConnector testEndpoint false :=
  ⟨rfl, (eager_lazy_share_constructor okConnector testEndpoint
    okHandshake).2.2.2.2.2.2.2 (Connection.new okConnector testEndpoint false) rfl⟩

/-- Witness for C1: the pipeline layer list at the concrete fully-configured
endpoint. -/
theorem pipeline_fixed_order_witness :
    (Connection.new okConnector testEndpoint true).layers =
      [LayerSpec.addOrigin testOrigin, LayerSpec.userAgent (some "tonic-ua"),
        LayerSpec.grpcTimeout (some 5), LayerSpec.concurrencyLimit 2,
        LayerSpec.rateLimit 3 7] := by
  have h := (pipeline_fixed_order okConnector testEndpoint true).1
  simpa [testEndpoint, testUri, testOrigin] using h

/-- Witness for C8: the load of a concrete Connection is the constant 0. -/
theorem load_is_constant_witness :
    Connection.load (Connection.new okConnector testEndpoint true) = 0 :=
  (load_is_constant (Connection.new okConnector testEndpoint true)
    (Connection.new failConnector testEndpoint false)).2

/-- Witness for C9: the Debug string of a concrete Connection. -/
theorem debug_is_type_name_only_witness :
    Connection.fmtDebug (Connection.new okConnector testEndpoint true) = "Connection" :=
  (debug_is_type_name_only (Connection.new okConnector testEndpoint true)
    (Connection.new failConnector testEndpoint false)).2
